import Mathlib

/-!
# Verification of the `@node-in-layers/data` package core

Shallow embedding of the data-access core of the repository:
* the naming resolver (`src/libs.ts`),
* the mongo connection-string / database-objects builder (`src/services.ts`),
* the database-objects factory dispatch (`src/services.ts`, `getDatabaseObjects`),
* the multi-database registry (`src/services.ts`, `_getDatabases` / `getDatabases`),
* the model CRUD/search service (`src/services.ts`, `createModelCrudsService`).

JavaScript `undefined`-able values are modelled as `Option`; JS template-string
interpolation of `undefined` renders the string "undefined"; lodash `merge`
mutation of its destination object is modelled by explicit state passing
(the post state of the configuration is returned alongside the result).
-/

namespace NilData

/-! ## lodash `kebabCase` (external dependency of `src/libs.ts`), ASCII fragment

lodash's `kebabCase` splits a string into words and joins them, lowercased,
with `-`.  On ASCII input, word splitting takes maximal alphanumeric runs and
further splits them at a lower→upper boundary, at a letter↔digit boundary, and
before the last upper of an upper run followed by a lower ("FOOBar" → "FOO",
"Bar").  Every non-alphanumeric character is a separator. -/

def isWordChar (c : Char) : Bool := c.isAlphanum

/-- Word boundary between a previous char `p` and the current char `c`,
with one char of lookahead `next` (for the upper-upper-lower rule). -/
def isWordBoundary (p c : Char) (next : Option Char) : Bool :=
  (p.isLower && c.isUpper) ||
  (p.isDigit && c.isAlpha) ||
  (p.isAlpha && c.isDigit) ||
  (p.isUpper && c.isUpper && (match next with | some n => n.isLower | none => false))

/-- Word splitter: `acc` holds the current word reversed. -/
def wordsAux : List Char → List Char → List (List Char)
  | [], acc => if acc.isEmpty then [] else [acc.reverse]
  | c :: rest, acc =>
    if isWordChar c then
      match acc with
      | [] => wordsAux rest [c]
      | p :: _ =>
        if isWordBoundary p c rest.head? then
          acc.reverse :: wordsAux rest [c]
        else
          wordsAux rest (c :: acc)
    else
      if acc.isEmpty then wordsAux rest [] else acc.reverse :: wordsAux rest []

def lodashWords (l : List Char) : List (List Char) := wordsAux l []

/-- lodash `createCompounder` join: words joined with `-`. -/
def joinKebab : List (List Char) → List Char
  | [] => []
  | [w] => w
  | w :: ws => w ++ '-' :: joinKebab ws

def kebabCase (s : String) : String :=
  String.mk (joinKebab ((lodashWords s.toList).map (fun w => w.map Char.toLower)))

/-! ## Naming resolver (`src/libs.ts`) -/

/-- Function `getSystemInfrastructureName` from `src/libs.ts:5`:
`component ? kebabCase(systemName-component-environment) : kebabCase(systemName-environment)`. -/
def getSystemInfrastructureName (environment systemName : String)
    (component : Option String) : String :=
  match component with
  | some c => kebabCase (systemName ++ "-" ++ c ++ "-" ++ environment)
  | none => kebabCase (systemName ++ "-" ++ environment)

/-- Function `defaultGetTableNameForModel` from `src/libs.ts:19` (with the model already
resolved to its name string). -/
def defaultGetTableNameForModel (environment systemName modelName : String) : String :=
  getSystemInfrastructureName environment systemName (some modelName)

example : kebabCase "sys-MyModel-dev" = "sys-my-model-dev" := by decide
example : getSystemInfrastructureName "dev" "sys" (some "MyModel") = "sys-my-model-dev" := by decide
example : getSystemInfrastructureName "dev" "sys" none = "sys-dev" := by decide
example : kebabCase "FOOBar" = "foo-bar" := by decide
example : kebabCase "abc123def" = "abc-123-def" := by decide

/-! ## Database props (`src/types.ts`)

`DatabaseObjectsProps` is a tagged record of connection parameters; every
field a builder may read is present, JS-absent fields are `none`.  The
`datastoreType` discriminant is kept as a string, as in the source's
`SupportedDatabase` string enum. -/

structure DbProps where
  datastoreType : Option String := none
  environment : Option String := none
  systemName : Option String := none
  host : Option String := none
  port : Option Nat := none
  username : Option String := none
  password : Option String := none
  connectionString : Option String := none
  filename : Option String := none
  awsRegion : Option String := none
deriving Repr, DecidableEq

/-- JS template-string rendering of a possibly-`undefined` string value. -/
def jsStr (o : Option String) : String := o.getD "undefined"

/-- lodash `merge(dst, src)` field rule: a defined source value overwrites,
an `undefined` source value leaves the destination value. -/
def ov {α : Type} (dst src : Option α) : Option α :=
  match src with
  | some v => some v
  | none => dst

/-- lodash `merge(dst, src)` on flat props objects (`src/services.ts:353,362`).
The JS call mutates and returns `dst`; mutation is modelled by state passing
where the merge is used. -/
def mergeProps (dst src : DbProps) : DbProps :=
  { datastoreType := ov dst.datastoreType src.datastoreType
    environment := ov dst.environment src.environment
    systemName := ov dst.systemName src.systemName
    host := ov dst.host src.host
    port := ov dst.port src.port
    username := ov dst.username src.username
    password := ov dst.password src.password
    connectionString := ov dst.connectionString src.connectionString
    filename := ov dst.filename src.filename
    awsRegion := ov dst.awsRegion src.awsRegion }

/-! ## Mongo builder (`src/services.ts:48-105`) -/

/-- A JS `Error` as far as the cleanup path observes it: name and message. -/
structure JsError where
  name : String
  message : String
deriving Repr, DecidableEq

def DEFAULT_MONGO_PORT : Nat := 27017

/-- Port defaulting `port || DEFAULT_MONGO_PORT` — JS falsiness: absent or `0` falls back. -/
def mongoPort (port : Option Nat) : Nat :=
  match port with
  | some p => if p = 0 then DEFAULT_MONGO_PORT else p
  | none => DEFAULT_MONGO_PORT

/-- Function `createMongoConnectionString` from `src/services.ts:50`:
`mongodb://${username ? `${username}:${password}@` : ''}${host}:${port || 27017}`.
An empty-string username is JS-falsy, so it embeds no credentials. -/
def createMongoConnectionString (host : Option String) (port : Option Nat)
    (username password : Option String) : String :=
  "mongodb://" ++
    (match username with
     | some u => if u = "" then "" else u ++ ":" ++ jsStr password ++ "@"
     | none => "") ++
    jsStr host ++ ":" ++ toString (mongoPort port)

/-- The observable data assembled by `createMongoDatabaseObjects`
(`src/services.ts:66`): the connection string handed to the native client and
the `databaseName` handed to the datastore provider. -/
structure MongoDatabaseObjects where
  connectionString : String
  databaseName : String
deriving Repr, DecidableEq

def createMongoDatabaseObjects (p : DbProps) : MongoDatabaseObjects :=
  { connectionString := createMongoConnectionString p.host p.port p.username p.password
    databaseName :=
      getSystemInfrastructureName (jsStr p.environment) (jsStr p.systemName) none }

/-- The cleanup function returned by the mongo builder
(`src/services.ts:97-99`): `() => mongoClient.close()` — the close call's
outcome is returned as-is, with no error handling around it. -/
def mongoCleanup (closeResult : Except JsError Unit) : Except JsError Unit :=
  closeResult

/-- Whether `sub` occurs as a contiguous run inside `l`. -/
def hasSubstr (sub : List Char) : List Char → Bool
  | [] => sub.isEmpty
  | c :: rest => sub.isPrefixOf (c :: rest) || hasSubstr sub rest

/-- The benign teardown error class described by the spec (error-name plus
message-substring match); used to exhibit that the source's cleanup does not
treat it specially. -/
def isBenignCloseError (e : JsError) : Bool :=
  e.name = "MongoClientClosedError" &&
    hasSubstr "interrupted".toList e.message.toList

/-! ## Database-objects factory (`src/services.ts:226-237, 323-333`) -/

/-- The keys of `_supportedToDatastoreProviderFunc` (`src/services.ts:226`),
i.e. the string values of the `SupportedDatabase` enum. -/
def supportedDatabases : List String :=
  ["memory", "dynamo", "mongo", "opensearch", "sqlite", "mysql", "postgres"]

/-- A built `DatabaseObjects` bundle, abstracted to what the registry claims
observe: which builder produced it and the props it was constructed from. -/
structure DatabaseObjects where
  kind : String
  props : DbProps
deriving Repr, DecidableEq

/-- Native-client constructions a builder performs, by backend kind: every
builder constructs exactly one native client except `memory`
(`src/services.ts:107-113`), which opens nothing. -/
def builderEvents (kind : String) : List String :=
  if kind = "memory" then [] else [kind]

/-- Function `getDatabaseObjects` from `src/services.ts:323-333`: looks up the builder
for `props.datastoreType`; a missing entry raises
`Unhandled type ${props.datastoreType}` before any builder runs.  The second
component is the log of native-client constructions performed. -/
def getDatabaseObjects (p : DbProps) : Except String DatabaseObjects × List String :=
  match p.datastoreType with
  | some t =>
    if t ∈ supportedDatabases then (Except.ok ⟨t, p⟩, builderEvents t)
    else (Except.error ("Unhandled type " ++ t), [])
  | none => (Except.error "Unhandled type undefined", [])

/-! ## Multi-database registry (`src/services.ts:348-383`) -/

/-- The `databases` configuration map: the `"default"` entry (possibly absent
from the caller's config) and the other named entries in key order. -/
structure MultiDbConfig where
  default : Option DbProps := none
  others : List (String × DbProps) := []
deriving Repr, DecidableEq

/-- Object `neededProps` from `src/services.ts:349-352`: the ambient
`{environment, systemName}` from the top-level config, as a props object. -/
def neededProps (env sys : Option String) : DbProps :=
  { environment := env, systemName := sys }

/-- Sequential construction of the non-default entries
(`src/services.ts:366-376`): the `reduce` over awaited promises builds each
entry in order and stops at the first failure, so later builders never run.
Returns the built entries and the native-client construction log. -/
def buildOthers : List (String × DbProps) →
    Except String (List (String × DatabaseObjects)) × List String
  | [] => (Except.ok [], [])
  | (n, p) :: rest =>
    match getDatabaseObjects p with
    | (Except.error e, ev) => (Except.error e, ev)
    | (Except.ok d, ev) =>
      match buildOthers rest with
      | (Except.error e, ev2) => (Except.error e, ev ++ ev2)
      | (Except.ok ds, ev2) => (Except.ok ((n, d) :: ds), ev ++ ev2)

/-- Function `_getDatabases` from `src/services.ts:348-381`, state-passing.

* `merge(databases.default, neededProps)` with an absent `"default"` key:
  lodash coerces the `undefined` destination to a fresh `{}`, so the merged
  props carry only `{environment, systemName}` and no `datastoreType`.
* When `"default"` is present, the same `merge` call mutates the configured
  entry object in place; likewise `merge(y, neededProps)` for every other
  entry (`src/services.ts:362`).  The mutated configuration is the second
  component of the result.
* The default entry is built first (`await` at `src/services.ts:365`); the
  others follow sequentially; any failure rejects the whole construction.
* The third component is the log of native-client constructions. -/
def runGetDatabases (env sys : Option String) (cfg : MultiDbConfig) :
    Except String (List (String × DatabaseObjects)) × MultiDbConfig × List String :=
  let needed := neededProps env sys
  let defaultProps := mergeProps (cfg.default.getD {}) needed
  let cfg2 : MultiDbConfig :=
    { default := cfg.default.map (fun d => mergeProps d needed)
      others := cfg.others.map (fun e => (e.1, mergeProps e.2 needed)) }
  match getDatabaseObjects defaultProps with
  | (Except.error e, ev) => (Except.error e, cfg2, ev)
  | (Except.ok d0, ev0) =>
    match buildOthers cfg2.others with
    | (Except.error e, ev1) => (Except.error e, cfg2, ev0 ++ ev1)
    | (Except.ok ds, ev1) => (Except.ok (("default", d0) :: ds), cfg2, ev0 ++ ev1)

/-! ## Memoized `getDatabases` (`src/services.ts:383`)

`const getDatabases = () => memoizeValue(_getDatabases)()`.

`memoizeValue` comes from `@node-in-layers/core/utils.js`, which is not part
of this repository.  Modelled from the spec: the spec describes the cached
`getDatabases()` result as "global mutable memoized state" — a process-wide
static cache (design notes) — i.e. `memoizeValue` caches on the underlying
function value, so re-wrapping the same `_getDatabases` closure at every call
still returns the one cached result, and the underlying construction runs at
most once per registry instance. -/

instance : DecidableEq (Except String (List (String × DatabaseObjects))) := fun a b =>
  match a, b with
  | Except.ok x, Except.ok y =>
    if h : x = y then isTrue (by simp [h]) else isFalse (by simp [h])
  | Except.error x, Except.error y =>
    if h : x = y then isTrue (by simp [h]) else isFalse (by simp [h])
  | Except.ok _, Except.error _ => isFalse (by simp)
  | Except.error _, Except.ok _ => isFalse (by simp)

/-- The registry's state across `getDatabases()` calls: the configuration
object (mutated in place by the merges), the memoization cache cell for
`_getDatabases`, and the accumulated native-client construction log. -/
structure RegistryState where
  cfg : MultiDbConfig
  cache : Option (Except String (List (String × DatabaseObjects))) := none
  log : List String := []
deriving Repr, DecidableEq

/-- One `getDatabases()` call (`src/services.ts:383`) under the spec-modelled
keyed memoization: a cached result is returned as-is; otherwise
`_getDatabases` runs once and its result is cached. -/
def getDatabasesCall (env sys : Option String) (st : RegistryState) :
    Except String (List (String × DatabaseObjects)) × RegistryState :=
  match st.cache with
  | some v => (v, st)
  | none =>
    let r := runGetDatabases env sys st.cfg
    (r.1, { cfg := r.2.1, cache := some r.1, log := st.log ++ r.2.2 })

/-- Performs `n` successive `getDatabases()` calls, collecting every call's result. -/
def getDatabasesCalls (env sys : Option String) :
    Nat → RegistryState →
      List (Except String (List (String × DatabaseObjects))) × RegistryState
  | 0, st => ([], st)
  | Nat.succ k, st =>
    let (r, st') := getDatabasesCall env sys st
    let (rs, st'') := getDatabasesCalls env sys k st'
    (r :: rs, st'')

/-- For contrast (not the spec's reading): were `memoizeValue` a plain
per-wrapper cache cell, line 383 would create a fresh empty cell at every
call, so `_getDatabases` would run — and open new connections — on each call. -/
def getDatabasesCallFreshCell (env sys : Option String) (st : RegistryState) :
    Except String (List (String × DatabaseObjects)) × RegistryState :=
  let r := runGetDatabases env sys st.cfg
  (r.1, { cfg := r.2.1, cache := some r.1, log := st.log ++ r.2.2 })

/-! ## Model CRUD/search service (`src/services.ts:239-294`) -/

/-- The shape an ORM adapter's `model.search` resolves with: the live
instances in engine order and the opaque pagination token. -/
structure OrmSearchResult (α : Type) where
  instances : List α
  page : Option String
deriving Repr, DecidableEq

/-- Operation `search` from `createModelCrudsService` (`src/services.ts:274-284`):
`asyncMap` maps `toObj` over the returned instances (order-preserving), and
`page` is copied from the adapter's result. -/
def crudsSearch {α β : Type} (toObj : α → β) (r : OrmSearchResult α) :
    OrmSearchResult β :=
  { instances := r.instances.map toObj, page := r.page }

/-- The slice of a bound ORM model that `retrieve`/`delete` use: primary-key
lookup of the live instance, and `toObj` on a live instance. -/
structure OrmModelM (ι α β : Type) where
  lookup : ι → Option α
  toObj : α → β

/-- Backend operations the CRUD service can trigger. -/
inductive BackendOp (ι : Type) where
  | deleted : ι → BackendOp ι
deriving Repr, DecidableEq

/-- Operation `del` from `createModelCrudsService` (`src/services.ts:256-263`): looks
the id up first; when absent it resolves with no backend deletion; otherwise
it calls `instance.delete()`.  The second component logs backend deletions. -/
def crudsDel {ι α β : Type} (m : OrmModelM ι α β) (i : ι) :
    Except JsError Unit × List (BackendOp ι) :=
  match m.lookup i with
  | none => (Except.ok (), [])
  | some _ => (Except.ok (), [BackendOp.deleted i])

/-- Operation `retrieve` from `createModelCrudsService` (`src/services.ts:265-272`):
resolves with `undefined` when the lookup finds nothing, else with the
instance's plain `toObj` data; the code path raises nothing of its own. -/
def crudsRetrieve {ι α β : Type} (m : OrmModelM ι α β) (i : ι) :
    Except JsError (Option β) :=
  match m.lookup i with
  | none => Except.ok none
  | some a => Except.ok (some (m.toObj a))

/-! ## Theorems -/

/-- C9: the naming resolver is pure, deterministic and total on string inputs:
it kebab-cases `systemName-component-environment` when a component is present
and `systemName-environment` otherwise (component inserted only when present,
in that order), identical inputs give identical outputs, and
`("sys", "dev", "MyModel")` resolves to `"sys-my-model-dev"`. -/
theorem naming_resolver_deterministic_kebab_ordered :
    (∀ e s c, getSystemInfrastructureName e s c = getSystemInfrastructureName e s c)
    ∧ (∀ e s c, getSystemInfrastructureName e s (some c)
        = kebabCase (s ++ "-" ++ c ++ "-" ++ e))
    ∧ (∀ e s, getSystemInfrastructureName e s none = kebabCase (s ++ "-" ++ e))
    ∧ getSystemInfrastructureName "dev" "sys" (some "MyModel") = "sys-my-model-dev"
    ∧ defaultGetTableNameForModel "dev" "sys" "MyModel" = "sys-my-model-dev" :=
  ⟨fun _ _ _ => rfl, fun _ _ _ => rfl, fun _ _ => rfl, by decide, by decide⟩

/-- C7: `search` returns the adapter's instances mapped to their plain `toObj`
data, preserving order and count, with the adapter's pagination token carried
through unchanged; an adapter result with no instances and no token yields
`{instances: [], page: undefined}`. -/
theorem search_normalizes_instances_and_carries_page {α β : Type}
    (toObj : α → β) (r : OrmSearchResult α) :
    (crudsSearch toObj r).page = r.page
    ∧ (crudsSearch toObj r).instances = r.instances.map toObj
    ∧ (crudsSearch toObj r).instances.length = r.instances.length
    ∧ (∀ i : Nat, (crudsSearch toObj r).instances.get? i
        = (r.instances.get? i).map toObj)
    ∧ crudsSearch toObj ({ instances := [], page := none } : OrmSearchResult α)
        = { instances := [], page := none } :=
  ⟨rfl, rfl, by simp [crudsSearch], fun i => by simp [crudsSearch], rfl⟩

/-- C8: on an id whose model lookup finds no live instance, `retrieve`
resolves to `undefined` without throwing, and `delete` resolves as a no-op
performing no backend deletion. -/
theorem retrieve_delete_missing_id_noop {ι α β : Type} (m : OrmModelM ι α β)
    (i : ι) (h : m.lookup i = none) :
    crudsRetrieve m i = Except.ok none
    ∧ crudsDel m i = (Except.ok (), []) := by
  refine ⟨?_, ?_⟩ <;> simp [crudsRetrieve, crudsDel, h]

/-- A model whose lookup finds nothing, for the C8 witness. -/
def emptyLookupModel : OrmModelM Nat Nat Nat :=
  { lookup := fun _ => none, toObj := fun a => a }

theorem retrieve_delete_missing_id_noop_witness :
    crudsRetrieve emptyLookupModel 7 = Except.ok none
    ∧ crudsDel emptyLookupModel 7 = (Except.ok (), []) :=
  retrieve_delete_missing_id_noop emptyLookupModel 7 rfl

/-- The "client already closed, operation interrupted" teardown error the spec
describes as benign. -/
def benignCloseError : JsError :=
  { name := "MongoClientClosedError"
    message := "Operation interrupted because the client was closed" }

/-- C3 counterexample: the cleanup returned by the mongo builder does not
swallow the benign "already closed" error class — at a concrete close failure
of exactly that class it re-raises the error instead of resolving. -/
theorem mongo_cleanup_not_swallowing_benign_error :
    isBenignCloseError benignCloseError = true
    ∧ mongoCleanup (Except.error benignCloseError) = Except.error benignCloseError
    ∧ mongoCleanup (Except.error benignCloseError) ≠ Except.ok () :=
  ⟨by decide, rfl, by simp [mongoCleanup]⟩

/-- C3 amended: the cleanup function returned by the mongo builder releases
the native client by calling its `close` and propagates the close call's
outcome unchanged — every teardown error, the benign "already closed" class
included, is re-raised, and none is swallowed. -/
theorem mongo_cleanup_propagates_close_result (r : Except JsError Unit) :
    mongoCleanup r = r := rfl

/-- Mongo props carrying a caller-supplied `connectionString`. -/
def mongoPropsWithConnectionString : DbProps :=
  { datastoreType := some "mongo", host := some "h", environment := some "dev"
    systemName := some "sys", connectionString := some "mongodb://custom-url" }

/-- C5 counterexample: a caller-supplied `connectionString` is not taken
verbatim — the mongo builder derives the string from host and port anyway,
and the derived string does not contain the resolved database name either. -/
theorem mongo_connection_string_not_caller_supplied :
    (createMongoDatabaseObjects mongoPropsWithConnectionString).connectionString
      = "mongodb://h:27017"
    ∧ (createMongoDatabaseObjects mongoPropsWithConnectionString).connectionString
      ≠ "mongodb://custom-url"
    ∧ (createMongoDatabaseObjects mongoPropsWithConnectionString).databaseName
      = "sys-dev"
    ∧ hasSubstr "sys-dev".toList
        (createMongoDatabaseObjects mongoPropsWithConnectionString).connectionString.toList
      = false := by
  refine ⟨by decide, by decide, by decide, by decide⟩

/-- C5 amended: the mongo connection string is always derived from host, port
(defaulting to the well-known port 27017) and credentials — the
`username:password` pair embedded exactly when a non-empty username is present
— while any caller-supplied `connectionString` is ignored; the resolved
database name is not part of the connection string but is passed separately to
the datastore provider as its database name. -/
theorem mongo_connection_string_derivation (p : DbProps) (c : Option String) :
    createMongoDatabaseObjects { p with connectionString := c }
      = createMongoDatabaseObjects p
    ∧ (p.username = none →
        (createMongoDatabaseObjects p).connectionString
          = "mongodb://" ++ jsStr p.host ++ ":" ++ toString (mongoPort p.port))
    ∧ (∀ u, p.username = some u → u ≠ "" →
        (createMongoDatabaseObjects p).connectionString
          = "mongodb://" ++ u ++ ":" ++ jsStr p.password ++ "@"
              ++ jsStr p.host ++ ":" ++ toString (mongoPort p.port))
    ∧ (p.port = none → mongoPort p.port = DEFAULT_MONGO_PORT)
    ∧ (createMongoDatabaseObjects p).databaseName
        = getSystemInfrastructureName (jsStr p.environment) (jsStr p.systemName) none := by
  refine ⟨rfl, ?_, ?_, ?_, rfl⟩
  · intro h
    simp [createMongoDatabaseObjects, createMongoConnectionString, h, String.append_assoc]
  · intro u hu hne
    simp [createMongoDatabaseObjects, createMongoConnectionString, hu, hne,
      String.append_assoc]
  · intro h
    simp [mongoPort, h]

/-- Mongo props with credentials and no explicit port, for the C5 witness. -/
def mongoPropsAlice : DbProps :=
  { datastoreType := some "mongo", host := some "db.example"
    username := some "alice", password := some "pw"
    environment := some "dev", systemName := some "sys" }

theorem mongo_connection_string_derivation_witness :
    createMongoDatabaseObjects { mongoPropsAlice with connectionString := some "x" }
      = createMongoDatabaseObjects mongoPropsAlice
    ∧ (createMongoDatabaseObjects mongoPropsAlice).connectionString
      = "mongodb://alice:pw@db.example:27017"
    ∧ mongoPort mongoPropsAlice.port = DEFAULT_MONGO_PORT := by
  have h := mongo_connection_string_derivation mongoPropsAlice (some "x")
  exact ⟨h.1, ((h.2.2.1 "alice" rfl (by decide)).trans (by decide)),
    h.2.2.2.1 rfl⟩

/-- C4: for props whose `datastoreType` is not one of the seven recognized
backend kinds (or is absent), `getDatabaseObjects` fails with an error naming
the unhandled type, and no builder runs — no native client is even partially
constructed. -/
theorem unknown_backend_fails_fast (p : DbProps)
    (h : ∀ t ∈ supportedDatabases, p.datastoreType ≠ some t) :
    (getDatabaseObjects p).1
      = Except.error ("Unhandled type " ++ jsStr p.datastoreType)
    ∧ (getDatabaseObjects p).2 = [] := by
  cases hd : p.datastoreType with
  | none =>
    refine ⟨?_, ?_⟩ <;> simp [getDatabaseObjects, hd, jsStr]
  | some t =>
    have ht : t ∉ supportedDatabases := fun hmem => (h t hmem) hd
    refine ⟨?_, ?_⟩ <;> simp [getDatabaseObjects, hd, jsStr, ht]

/-- Props with the unrecognized backend kind "nonexistent". -/
def nonexistentBackendProps : DbProps :=
  { datastoreType := some "nonexistent", environment := some "dev"
    systemName := some "sys" }

theorem unknown_backend_fails_fast_witness :
    (getDatabaseObjects nonexistentBackendProps).1
      = Except.error ("Unhandled type " ++ jsStr nonexistentBackendProps.datastoreType)
    ∧ (getDatabaseObjects nonexistentBackendProps).2 = [] :=
  unknown_backend_fails_fast nonexistentBackendProps (by decide)

/-- C2: a configuration whose databases map lacks a `"default"` key makes the
registry construction fail with a configuration error before any builder runs
— the native-client construction log is empty — regardless of the backend
kinds of the other configured entries.  (The error the source raises there is
`Unhandled type undefined`: the merged default props carry no
`datastoreType`.) -/
theorem missing_default_fails_before_any_connection (env sys : Option String)
    (cfg : MultiDbConfig) (h : cfg.default = none) :
    (runGetDatabases env sys cfg).1 = Except.error "Unhandled type undefined"
    ∧ (runGetDatabases env sys cfg).2.2 = [] := by
  refine ⟨?_, ?_⟩ <;>
    simp [runGetDatabases, h, mergeProps, neededProps, getDatabaseObjects, ov]

/-- A configuration without a `"default"` entry but with entries of several
backend kinds. -/
def cfgNoDefault : MultiDbConfig :=
  { others :=
      [("cache", { datastoreType := some "dynamo", awsRegion := some "us-east-1" }),
       ("legacy", { datastoreType := some "sqlite", filename := some "/data/l.sqlite3" }),
       ("docs", { datastoreType := some "mongo", host := some "h" })] }

theorem missing_default_fails_before_any_connection_witness :
    (runGetDatabases (some "dev") (some "sys") cfgNoDefault).1
      = Except.error "Unhandled type undefined"
    ∧ (runGetDatabases (some "dev") (some "sys") cfgNoDefault).2.2 = []
    ∧ cfgNoDefault.default = none :=
  ⟨(missing_default_fails_before_any_connection (some "dev") (some "sys")
      cfgNoDefault rfl).1,
   (missing_default_fails_before_any_connection (some "dev") (some "sys")
      cfgNoDefault rfl).2, rfl⟩

/-- A successful `getDatabaseObjects` call returns a bundle built from exactly
the props it was given, and its construction log is that builder's. -/
theorem getDatabaseObjects_ok {p : DbProps} {d : DatabaseObjects}
    {ev : List String} (h : getDatabaseObjects p = (Except.ok d, ev)) :
    d.props = p ∧ ev = builderEvents d.kind := by
  rw [getDatabaseObjects] at h
  split at h
  · split at h
    · simp only [Prod.mk.injEq, Except.ok.injEq] at h
      obtain ⟨h1, h2⟩ := h
      subst h1
      exact ⟨rfl, h2.symm⟩
    · simp at h
  · simp at h

/-- A successful `buildOthers` run builds every output entry from a props
object of the input list (under the same name), and its construction log is
the concatenation of the builders' logs in output order. -/
theorem buildOthers_ok : ∀ {l : List (String × DbProps)}
    {ds : List (String × DatabaseObjects)} {ev : List String},
    buildOthers l = (Except.ok ds, ev) →
    (∀ x ∈ ds, ∃ p, (x.1, p) ∈ l ∧ x.2.props = p)
    ∧ ev = (ds.map (fun x => builderEvents x.2.kind)).flatten := by
  intro l
  induction l with
  | nil =>
    intro ds ev h
    rw [buildOthers] at h
    simp only [Prod.mk.injEq, Except.ok.injEq] at h
    obtain ⟨h1, h2⟩ := h
    subst h1; subst h2
    exact ⟨fun x hx => absurd hx (List.not_mem_nil x), by simp⟩
  | cons a rest ih =>
    intro ds ev h
    obtain ⟨n, p⟩ := a
    rw [buildOthers] at h
    rcases hgo : getDatabaseObjects p with ⟨rg, evg⟩
    rw [hgo] at h
    cases rg with
    | error e1 => simp at h
    | ok dg =>
      rcases hrest : buildOthers rest with ⟨rr, evr⟩
      rw [hrest] at h
      cases rr with
      | error e2 => simp at h
      | ok ds2 =>
        simp only [Prod.mk.injEq, Except.ok.injEq] at h
        obtain ⟨h1, h2⟩ := h
        subst h1; subst h2
        obtain ⟨hmem, hev⟩ := ih hrest
        obtain ⟨hprops, hev1⟩ := getDatabaseObjects_ok hgo
        refine ⟨?_, ?_⟩
        · intro x hx
          rcases List.mem_cons.mp hx with hx | hx
          · subst hx
            exact ⟨p, List.mem_cons_self _ _, hprops⟩
          · obtain ⟨q, hq, hqp⟩ := hmem x hx
            exact ⟨q, List.mem_cons_of_mem _ hq, hqp⟩
        · simp [hev1, hev]

/-- A configuration whose entries lack environment/systemName, to exhibit the
in-place merge. -/
def cfgMutationDemo : MultiDbConfig :=
  { default := some { datastoreType := some "memory" }
    others := [("legacy",
      { datastoreType := some "sqlite", filename := some "/data/legacy.sqlite3" })] }

/-- C6 counterexample: building the registry does not leave the caller's
configuration unchanged — after `_getDatabases` runs, the configured
`"default"` entry object has been mutated in place to carry the ambient
environment and systemName (lodash `merge` writes into its destination). -/
theorem registry_mutates_configured_entries :
    (runGetDatabases (some "dev") (some "sys") cfgMutationDemo).2.1
      ≠ cfgMutationDemo
    ∧ ((runGetDatabases (some "dev") (some "sys") cfgMutationDemo).2.1).default
      = some { datastoreType := some "memory", environment := some "dev"
               systemName := some "sys" } := by
  refine ⟨by decide, by decide⟩

/-- C6 amended: building the registry merges the shared
`{environment, systemName}` into the `"default"` entry and into every other
named entry in place: after construction the caller's configured entry objects
equal the merged props that construction used, rather than being left
unchanged. -/
theorem registry_merges_ambient_into_entries_in_place (env sys : Option String)
    (cfg : MultiDbConfig) :
    ((runGetDatabases env sys cfg).2.1).default
      = cfg.default.map (fun d => mergeProps d (neededProps env sys))
    ∧ ((runGetDatabases env sys cfg).2.1).others
      = cfg.others.map (fun e => (e.1, mergeProps e.2 (neededProps env sys))) := by
  refine ⟨?_, ?_⟩ <;>
  · simp only [runGetDatabases]
    split
    · rfl
    · split <;> rfl

/-- C10: every database entry the registry successfully builds — the
`"default"` one included — is constructed from props carrying the ambient
configuration's environment and systemName, the ambient values overwriting any
entry-local ones when defined. -/
theorem entries_built_under_ambient_env_sys (e s : String) (cfg : MultiDbConfig)
    (r : List (String × DatabaseObjects))
    (hr : (runGetDatabases (some e) (some s) cfg).1 = Except.ok r)
    (x : String × DatabaseObjects) (hx : x ∈ r) :
    x.2.props.environment = some e ∧ x.2.props.systemName = some s := by
  simp only [runGetDatabases] at hr
  rcases hgo : getDatabaseObjects
      (mergeProps (cfg.default.getD {}) (neededProps (some e) (some s)))
    with ⟨rg, evg⟩
  rw [hgo] at hr
  cases rg with
  | error e1 => simp at hr
  | ok dg =>
    rcases hbo : buildOthers
        (cfg.others.map (fun x => (x.1, mergeProps x.2 (neededProps (some e) (some s)))))
      with ⟨rb, evb⟩
    rw [hbo] at hr
    cases rb with
    | error e2 => simp at hr
    | ok ds =>
      simp only [Except.ok.injEq] at hr
      subst hr
      rcases List.mem_cons.mp hx with hx | hx
      · subst hx
        obtain ⟨hprops, -⟩ := getDatabaseObjects_ok hgo
        rw [hprops]
        exact ⟨rfl, rfl⟩
      · obtain ⟨q, hq, hqp⟩ := (buildOthers_ok hbo).1 x hx
        obtain ⟨orig, -, horig⟩ := List.mem_map.mp hq
        have hq2 : mergeProps orig.2 (neededProps (some e) (some s)) = q :=
          congrArg Prod.snd horig
        rw [hqp, ← hq2]
        exact ⟨rfl, rfl⟩

/-- A configuration with only a memory `"default"` entry, for the C10
witness. -/
def cfgMemoryOnly : MultiDbConfig :=
  { default := some { datastoreType := some "memory" } }

theorem entries_built_under_ambient_env_sys_witness :
    ((("default",
        (⟨"memory",
          { datastoreType := some "memory", environment := some "dev"
            systemName := some "sys" }⟩ : DatabaseObjects))
       : String × DatabaseObjects)).2.props.environment = some "dev"
    ∧ ((("default",
        (⟨"memory",
          { datastoreType := some "memory", environment := some "dev"
            systemName := some "sys" }⟩ : DatabaseObjects))
       : String × DatabaseObjects)).2.props.systemName = some "sys" :=
  entries_built_under_ambient_env_sys "dev" "sys" cfgMemoryOnly
    [("default",
      ⟨"memory",
        { datastoreType := some "memory", environment := some "dev"
          systemName := some "sys" }⟩)]
    (by decide) _ (List.mem_singleton.mpr rfl)

/-- Once the cache cell holds a value, further `getDatabases()` calls return
it unchanged and leave the registry state untouched. -/
theorem getDatabasesCalls_cached (env sys : Option String)
    (v : Except String (List (String × DatabaseObjects))) :
    ∀ (k : Nat) (st : RegistryState), st.cache = some v →
      getDatabasesCalls env sys k st = (List.replicate k v, st) := by
  intro k
  induction k with
  | zero => intro st h; rfl
  | succ m ih =>
    intro st h
    simp [getDatabasesCalls, getDatabasesCall, h, ih st h, List.replicate_succ]

/-- In the successful case, one `_getDatabases` run constructs exactly one
native client per non-memory entry of the resolved map, in map order. -/
theorem runGetDatabases_ok_events (env sys : Option String)
    (cfg : MultiDbConfig) {r : List (String × DatabaseObjects)}
    (h : (runGetDatabases env sys cfg).1 = Except.ok r) :
    (runGetDatabases env sys cfg).2.2
      = (r.map (fun x => builderEvents x.2.kind)).flatten := by
  simp only [runGetDatabases] at h ⊢
  rcases hgo : getDatabaseObjects
      (mergeProps (cfg.default.getD {}) (neededProps env sys))
    with ⟨rg, evg⟩
  rw [hgo] at h
  cases rg with
  | error e1 => simp at h
  | ok dg =>
    rcases hbo : buildOthers
        (cfg.others.map (fun x => (x.1, mergeProps x.2 (neededProps env sys))))
      with ⟨rb, evb⟩
    rw [hbo] at h
    cases rb with
    | error e2 => simp at h
    | ok ds =>
      simp only [Except.ok.injEq] at h
      subst h
      obtain ⟨-, hev1⟩ := getDatabaseObjects_ok hgo
      have hev2 := (buildOthers_ok hbo).2
      simp [hbo, hev1, hev2]

/-- C1: under the spec-modelled memoization of `_getDatabases`, any number
`n ≥ 1` of `getDatabases()` calls on one registry instance (i) all return the
one result of the single underlying `_getDatabases` run, (ii) accumulate the
construction log of exactly one run — the underlying construction routine runs
at most once — and (iii) in the successful case that log holds exactly one
native-client construction per configured non-memory logical database name: no
duplicate connections are ever opened. -/
theorem getDatabases_memoized_builds_at_most_once (env sys : Option String)
    (cfg : MultiDbConfig) (n : Nat) (hn : 1 ≤ n) :
    (∀ v ∈ (getDatabasesCalls env sys n { cfg := cfg }).1,
        v = (runGetDatabases env sys cfg).1)
    ∧ (getDatabasesCalls env sys n { cfg := cfg }).2.log
        = (runGetDatabases env sys cfg).2.2
    ∧ (∀ r, (runGetDatabases env sys cfg).1 = Except.ok r →
        (getDatabasesCalls env sys n { cfg := cfg }).2.log
          = (r.map (fun x => builderEvents x.2.kind)).flatten) := by
  obtain ⟨m, rfl⟩ : ∃ m, n = m + 1 :=
    ⟨n - 1, (Nat.succ_pred_eq_of_pos hn).symm⟩
  have hfirst : getDatabasesCall env sys { cfg := cfg }
      = ((runGetDatabases env sys cfg).1,
         { cfg := (runGetDatabases env sys cfg).2.1
           cache := some ((runGetDatabases env sys cfg).1)
           log := (runGetDatabases env sys cfg).2.2 }) := by
    rw [getDatabasesCall]
    rfl
  have hall : getDatabasesCalls env sys (m + 1) { cfg := cfg }
      = ((runGetDatabases env sys cfg).1
           :: List.replicate m ((runGetDatabases env sys cfg).1),
         { cfg := (runGetDatabases env sys cfg).2.1
           cache := some ((runGetDatabases env sys cfg).1)
           log := (runGetDatabases env sys cfg).2.2 }) := by
    simp only [getDatabasesCalls, hfirst]
    rw [getDatabasesCalls_cached env sys ((runGetDatabases env sys cfg).1) m
      { cfg := (runGetDatabases env sys cfg).2.1
        cache := some ((runGetDatabases env sys cfg).1)
        log := (runGetDatabases env sys cfg).2.2 } rfl]
  refine ⟨?_, ?_, ?_⟩
  · intro v hv
    rw [hall] at hv
    rcases List.mem_cons.mp hv with hv | hv
    · exact hv
    · exact (List.eq_of_mem_replicate hv)
  · rw [hall]
  · intro r hr
    rw [hall]
    exact runGetDatabases_ok_events env sys cfg hr

/-- A two-database configuration (mongo default plus a memory entry) for the
C1 witness. -/
def cfgMongoDefault : MultiDbConfig :=
  { default := some { datastoreType := some "mongo", host := some "h" }
    others := [("cache", { datastoreType := some "memory" })] }

theorem getDatabases_memoized_builds_at_most_once_witness :
    (∀ v ∈ (getDatabasesCalls (some "dev") (some "sys") 2
        { cfg := cfgMongoDefault }).1,
      v = (runGetDatabases (some "dev") (some "sys") cfgMongoDefault).1)
    ∧ (getDatabasesCalls (some "dev") (some "sys") 2
        { cfg := cfgMongoDefault }).2.log
      = (runGetDatabases (some "dev") (some "sys") cfgMongoDefault).2.2
    ∧ (getDatabasesCalls (some "dev") (some "sys") 2
        { cfg := cfgMongoDefault }).2.log = ["mongo"] := by
  have h := getDatabases_memoized_builds_at_most_once (some "dev") (some "sys")
    cfgMongoDefault 2 (by decide)
  refine ⟨h.1, h.2.1, ?_⟩
  exact (h.2.1).trans (by decide)

/-- For contrast (no claim of the spec): were the external `memoizeValue` a
per-wrapper cache cell, the call pattern of `src/services.ts:383` would
allocate a fresh empty cell at every call, and two `getDatabases()` calls
would run the construction twice — opening a second mongo client. -/
theorem fresh_cell_per_call_would_duplicate_connections :
    ((getDatabasesCallFreshCell (some "dev") (some "sys")
        ((getDatabasesCallFreshCell (some "dev") (some "sys")
          { cfg := cfgMongoDefault }).2)).2).log
      = ["mongo", "mongo"] := by decide

end NilData
